import Mathlib

/-!
Verification of the yewoh protocol core against its specification.

The development shallowly embeds the two source files of the protocol core:
`crates/core/src/protocol/encryption/twofish.rs` (the Twofish block cipher)
and `crates/core/src/protocol/mod.rs` (packet registry, type-erased packet
container, framing reader and writer).  Machine integers (`u8`, `u16`, `u32`,
`usize`) are embedded as `Nat` with explicit reductions modulo `2^w` exactly
where the Rust code wraps; fallible operations return an explicit outcome
type distinguishing recoverable errors from panics/assertion failures.
-/

namespace Yewoh

namespace Twofish

/-- `QORD` table from twofish.rs. -/
def QORD : List (List Nat) := [
  [1, 1, 0, 0, 1],
  [0, 1, 1, 0, 0],
  [0, 0, 0, 1, 1],
  [1, 0, 1, 1, 0]]

/-- `QBOX` table from twofish.rs: two q-boxes, each four rows of 16 nibbles. -/
def QBOX : List (List (List Nat)) := [
  [
    [0x8, 0x1, 0x7, 0xD, 0x6, 0xF, 0x3, 0x2,
     0x0, 0xB, 0x5, 0x9, 0xE, 0xC, 0xA, 0x4],
    [0xE, 0xC, 0xB, 0x8, 0x1, 0x2, 0x3, 0x5,
     0xF, 0x4, 0xA, 0x6, 0x7, 0x0, 0x9, 0xD],
    [0xB, 0xA, 0x5, 0xE, 0x6, 0xD, 0x9, 0x0,
     0xC, 0x8, 0xF, 0x3, 0x2, 0x4, 0x7, 0x1],
    [0xD, 0x7, 0xF, 0x4, 0x1, 0x2, 0x6, 0xE,
     0x9, 0xB, 0x3, 0x0, 0x8, 0x5, 0xC, 0xA]
  ], [
    [0x2, 0x8, 0xB, 0xD, 0xF, 0x7, 0x6, 0xE,
     0x3, 0x1, 0x9, 0x4, 0x0, 0xA, 0xC, 0x5],
    [0x1, 0xE, 0x2, 0xB, 0x4, 0xC, 0x3, 0x7,
     0x6, 0xD, 0xA, 0x5, 0xF, 0x9, 0x0, 0x8],
    [0x4, 0xC, 0x7, 0x5, 0x1, 0x6, 0x9, 0xA,
     0x0, 0xE, 0xD, 0x8, 0x2, 0xB, 0x3, 0xF],
    [0xB, 0x9, 0x5, 0x1, 0xC, 0x3, 0xD, 0xE,
     0x6, 0x4, 0x7, 0xF, 0x2, 0x0, 0x8, 0xA]
  ]]

/-- `RS` matrix from twofish.rs. -/
def RS : List (List Nat) := [
  [0x01, 0xa4, 0x55, 0x87, 0x5a, 0x58, 0xdb, 0x9e],
  [0xa4, 0x56, 0x82, 0xf3, 0x1e, 0xc6, 0x68, 0xe5],
  [0x02, 0xa1, 0xfc, 0xc1, 0x47, 0xae, 0x3d, 0x19],
  [0xa4, 0x55, 0x87, 0x5a, 0x58, 0xdb, 0x9e, 0x03]]

/-- MDS field polynomial constant 0x69 from twofish.rs. -/
def MDS_POLY : Nat := 0x69

/-- RS field polynomial constant 0x4d from twofish.rs. -/
def RS_POLY : Nat := 0x4d

/-- Loop body of `gf_mult`.  The Rust `while a > 0` loop runs at most 8
iterations since `a : u8`; the fuel argument bounds it identically. -/
def gf_mult_go (p : Nat) : Nat → Nat → Nat → Nat → Nat
  | 0, _, _, result => result
  | fuel + 1, a, b, result =>
    if a = 0 then result
    else
      let result' := if a % 2 = 1 then result ^^^ b else result
      let b' := if 0x80 ≤ b then ((b * 2) % 256) ^^^ p else (b * 2) % 256
      gf_mult_go p fuel (a / 2) b' result'

/-- `gf_mult` from twofish.rs: GF(2^8) multiplication with reduction
polynomial `p`.  Operands are bytes (`u8`), so 8 iterations suffice. -/
def gf_mult (a b p : Nat) : Nat := gf_mult_go p 8 a b 0

/-- Indexing helper for the `QBOX` table (all source indices are in bounds). -/
def qbox (i j x : Nat) : Nat := ((QBOX.getD i []).getD j []).getD x 0

/-- Indexing helper for the `QORD` table. -/
def qord (y z : Nat) : Nat := (QORD.getD y []).getD z 0

/-- `sbox` from twofish.rs: the q_i permutation on a byte, built from two
rounds of 4-bit table lookups. -/
def sbox (i x : Nat) : Nat :=
  let a0 := (x >>> 4) &&& 15
  let b0 := x &&& 15
  let a1 := a0 ^^^ b0
  let b1 := (a0 ^^^ ((b0 <<< 3) ||| (b0 >>> 1)) ^^^ (a0 <<< 3)) &&& 15
  let a2 := qbox i 0 a1
  let b2 := qbox i 1 b1
  let a3 := a2 ^^^ b2
  let b3 := (a2 ^^^ ((b2 <<< 3) ||| (b2 >>> 1)) ^^^ (a2 <<< 3)) &&& 15
  let a4 := qbox i 2 a3
  let b4 := qbox i 3 b3
  (b4 <<< 4) + a4

/-- Build a `u32` from four little-endian bytes, as `u32::from_le_bytes`. -/
def u32_from_le (v : List Nat) : Nat :=
  v.getD 0 0 + (v.getD 1 0) * 0x100 + (v.getD 2 0) * 0x10000 + (v.getD 3 0) * 0x1000000

/-- Little-endian bytes of a `u32`, as `u32::to_le_bytes`. -/
def u32_to_le (x : Nat) : List Nat :=
  [x &&& 255, (x >>> 8) &&& 255, (x >>> 16) &&& 255, (x >>> 24) &&& 255]

/-- `mds_column_mult` from twofish.rs. -/
def mds_column_mult (x column : Nat) : Nat :=
  let x5b := gf_mult x 0x5b MDS_POLY
  let xef := gf_mult x 0xef MDS_POLY
  let v : List Nat :=
    match column with
    | 0 => [x, x5b, xef, xef]
    | 1 => [xef, xef, x5b, x]
    | 2 => [x5b, xef, x, xef]
    | 3 => [x5b, x, xef, x5b]
    | _ => [0, 0, 0, 0]  -- unreachable!() in the source; column is always 0..3
  u32_from_le v

/-- `mds_mult` from twofish.rs: XOR of the four MDS column products. -/
def mds_mult (y : List Nat) : Nat :=
  (List.range 4).foldl (fun z i => z ^^^ mds_column_mult (y.getD i 0) i) 0

/-- `rs_mult` from twofish.rs: multiply an 8-byte key chunk by the RS matrix,
producing 4 output bytes. -/
def rs_mult (m : List Nat) : List Nat :=
  (List.range 4).map (fun i =>
    (List.range 8).foldl (fun acc j =>
      acc ^^^ gf_mult (m.getD j 0) ((RS.getD i []).getD j 0) RS_POLY) 0)

/-- `h` from twofish.rs: the keyed hash on a 32-bit word, parameterized by
key half-word count `k` and byte offset. -/
def h (x : Nat) (m : List Nat) (k offset : Nat) : Nat :=
  let y := u32_to_le x
  let y :=
    if k = 4 then
      [sbox 1 (y.getD 0 0) ^^^ m.getD (4 * (6 + offset)) 0,
       sbox 0 (y.getD 1 0) ^^^ m.getD (4 * (6 + offset) + 1) 0,
       sbox 0 (y.getD 2 0) ^^^ m.getD (4 * (6 + offset) + 2) 0,
       sbox 1 (y.getD 3 0) ^^^ m.getD (4 * (6 + offset) + 3) 0]
    else y
  let y :=
    if 3 ≤ k then
      [sbox 1 (y.getD 0 0) ^^^ m.getD (4 * (4 + offset)) 0,
       sbox 1 (y.getD 1 0) ^^^ m.getD (4 * (4 + offset) + 1) 0,
       sbox 0 (y.getD 2 0) ^^^ m.getD (4 * (4 + offset) + 2) 0,
       sbox 0 (y.getD 3 0) ^^^ m.getD (4 * (4 + offset) + 3) 0]
    else y
  let a := 4 * (2 + offset)
  let b := 4 * offset
  let y :=
    [sbox 1 (sbox 0 (sbox 0 (y.getD 0 0) ^^^ m.getD a 0) ^^^ m.getD b 0),
     sbox 0 (sbox 0 (sbox 1 (y.getD 1 0) ^^^ m.getD (a + 1) 0) ^^^ m.getD (b + 1) 0),
     sbox 1 (sbox 1 (sbox 0 (y.getD 2 0) ^^^ m.getD (a + 2) 0) ^^^ m.getD (b + 2) 0),
     sbox 0 (sbox 1 (sbox 1 (y.getD 3 0) ^^^ m.getD (a + 3) 0) ^^^ m.getD (b + 3) 0)]
  mds_mult y

/-- 32-bit rotate left (`u32::rotate_left`), for `0 < n < 32`. -/
def rotl32 (v n : Nat) : Nat := ((v <<< n) % 0x100000000) ||| (v >>> (32 - n))

/-- 32-bit rotate right (`u32::rotate_right`), for `0 < n < 32`. -/
def rotr32 (v n : Nat) : Nat := (v >>> n) ||| ((v <<< (32 - n)) % 0x100000000)

/-- The `Twofish` cipher state: S-box key bytes, 40 round subkeys, and the
q-ordering start index. -/
structure Twofish where
  s : List Nat
  k : List Nat
  start : Nat

/-- `Twofish::key_schedule` from twofish.rs.  `key` is the raw key bytes
(16, 24 or 32 of them); `k = key.len() / 8`.  Wrapping `u32` additions are
reductions modulo `2^32`. -/
def key_schedule (key : List Nat) : Twofish :=
  let k := key.length / 8
  let rho : Nat := 0x1010101
  let subkeys := (List.range 20).flatMap (fun x =>
    let a := h (rho * (2 * x)) key k 0
    let b := rotl32 (h (rho * (2 * x + 1)) key k 1) 8
    let v := (a + b) % 0x100000000
    [v, rotl32 ((v + b) % 0x100000000) 9])
  let start :=
    match k with
    | 4 => 0
    | 3 => 1
    | 2 => 2
    | _ => 2  -- unreachable!() in the source; key length is 16, 24 or 32
  let s := ((List.range k).flatMap (fun i => rs_mult ((key.drop (8 * i)).take 8)))
             ++ List.replicate (16 - 4 * k) 0
  { s := s, k := subkeys, start := start }

/-- `Twofish::g_func` from twofish.rs: the keyed diffusion function. -/
def g_func (tf : Twofish) (x : Nat) : Nat :=
  (List.range 4).foldl (fun result y =>
    let g0 := sbox (qord y tf.start) ((x >>> (8 * y)) &&& 255)
    let g := (List.range' (tf.start + 1) (4 - tf.start)).foldl (fun g z =>
      sbox (qord y z) (g ^^^ tf.s.getD (4 * (z - tf.start - 1) + y) 0)) g0
    result ^^^ mds_column_mult g y) 0

/-- One iteration of the encryption round loop (`for r in 0..8`) from
`Twofish::encrypt`, acting on the four 32-bit words. -/
def encrypt_round (tf : Twofish) (p : Nat × Nat × Nat × Nat) (r : Nat) :
    Nat × Nat × Nat × Nat :=
  let (p0, p1, p2, p3) := p
  let k := 4 * r + 8
  let t1 := g_func tf (rotl32 p1 8)
  let t0 := (g_func tf p0 + t1) % 0x100000000
  let p2 := rotr32 (p2 ^^^ ((t0 + tf.k.getD k 0) % 0x100000000)) 1
  let t2 := (t1 + t0 + tf.k.getD (k + 1) 0) % 0x100000000
  let p3 := (rotl32 p3 1) ^^^ t2
  let t1 := g_func tf (rotl32 p3 8)
  let t0 := (g_func tf p2 + t1) % 0x100000000
  let p0 := rotr32 (p0 ^^^ ((t0 + tf.k.getD (k + 2) 0) % 0x100000000)) 1
  let t2 := (t1 + t0 + tf.k.getD (k + 3) 0) % 0x100000000
  let p1 := (rotl32 p1 1) ^^^ t2
  (p0, p1, p2, p3)

/-- `Twofish::encrypt` from twofish.rs: encrypt one 16-byte block. -/
def encrypt (tf : Twofish) (b : List Nat) : List Nat :=
  let p0 := u32_from_le (b.take 4)
  let p1 := u32_from_le ((b.drop 4).take 4)
  let p2 := u32_from_le ((b.drop 8).take 4)
  let p3 := u32_from_le ((b.drop 12).take 4)
  -- Input whitening
  let p0 := p0 ^^^ tf.k.getD 0 0
  let p1 := p1 ^^^ tf.k.getD 1 0
  let p2 := p2 ^^^ tf.k.getD 2 0
  let p3 := p3 ^^^ tf.k.getD 3 0
  let (p0, p1, p2, p3) := (List.range 8).foldl (encrypt_round tf) (p0, p1, p2, p3)
  -- Undo last swap and output whitening
  let p2 := p2 ^^^ tf.k.getD 4 0
  let p3 := p3 ^^^ tf.k.getD 5 0
  let p0 := p0 ^^^ tf.k.getD 6 0
  let p1 := p1 ^^^ tf.k.getD 7 0
  u32_to_le p2 ++ u32_to_le p3 ++ u32_to_le p0 ++ u32_to_le p1

end Twofish

namespace Protocol

/-- Outcome of a fallible protocol operation.  `err` is a recoverable
`anyhow::Result` error propagated to the caller; `panic` is a fatal
assertion failure, arithmetic-overflow panic or allocation abort, which is
never returned as a value in Rust. -/
inductive Outcome (α : Type) where
  | ok (value : α)
  | err (msg : String)
  | panic (msg : String)
deriving DecidableEq, Repr

/-- The negotiated client version.  The protocol core treats it as an
abstract token passed unchanged into every codec operation, so it is
embedded as a wrapper around an arbitrary numeric code. -/
structure ClientVersion where
  code : Nat
deriving DecidableEq, Repr

/-- Big-endian `u16` from two bytes (`byteorder::BigEndian::read_u16`,
`tokio` `read_u16`). -/
def be_u16 (b1 b2 : Nat) : Nat := b1 * 0x100 + b2

/-- Big-endian `u32` from four bytes (`byteorder::BigEndian::read_u32`). -/
def be_u32 (b0 b1 b2 b3 : Nat) : Nat :=
  ((b0 * 0x100 + b1) * 0x100 + b2) * 0x100 + b3

/-- Big-endian bytes of a `u32` (`byteorder::BigEndian::write_u32`). -/
def be_u32_bytes (x : Nat) : List Nat :=
  [(x >>> 24) &&& 255, (x >>> 16) &&& 255, (x >>> 8) &&& 255, x &&& 255]

/-- `MAX_PACKET_STRUCT_SIZE` constant from mod.rs. -/
def MAX_PACKET_STRUCT_SIZE : Nat := 64

/-- The capacity of the `AnyPacket` inline buffer,
`buffer: [u8; MAX_PACKET_STRUCT_SIZE]` in mod.rs. -/
def ANYPACKET_BUFFER_CAPACITY : Nat := MAX_PACKET_STRUCT_SIZE

/-- `PacketRegistration` from mod.rs, restricted to the fields the registry
build loop inspects: the kind byte and `size_of::<T>()`.  The four operation
pointers (drop, fixed-length, decode, encode) are carried unchanged by the
loop and play no role in the registry-construction invariants. -/
structure PacketRegistration where
  packet_kind : Nat
  size : Nat
deriving DecidableEq, Repr

/-- One step of the registry build loop: `registrations[index] = Some(registration)`
with `index = registration.packet_kind as usize`. -/
def registry_insert (table : Nat → Option PacketRegistration)
    (r : PacketRegistration) : Nat → Option PacketRegistration :=
  fun idx => if idx = r.packet_kind then some r else table idx

/-- The `registrations` table produced by the build loop in `packet_registry`,
starting from `vec![None; 0x100]`. -/
def build_registrations (rs : List PacketRegistration) :
    Nat → Option PacketRegistration :=
  rs.foldl registry_insert (fun _ => none)

/-- The `max_size` accumulator of the build loop:
`max_size = registration.size.max(max_size)` over the registration list. -/
def registry_max_size (rs : List PacketRegistration) : Nat :=
  rs.foldl (fun m r => max r.size m) 0

/-- `packet_registry` from mod.rs: build the table, then
`assert_eq!(max_size, MAX_PACKET_STRUCT_SIZE, ...)`.  A failed assertion is
a startup-time panic, not a returned error. -/
def packet_registry (rs : List PacketRegistration) :
    Outcome (Nat → Option PacketRegistration) :=
  if registry_max_size rs = MAX_PACKET_STRUCT_SIZE then
    .ok (build_registrations rs)
  else
    .panic "MAX_PACKET_STRUCT_SIZE is out of date"

/-- `AnyPacket` from mod.rs.  `Payload k` is the Lean type of the values of
the packet type registered at kind `k`.  The raw inline byte buffer
(`buffer: [u8; MAX_PACKET_STRUCT_SIZE]`), together with the invariant that
it always holds a valid value of the type registered at `kind`
(established by `from_packet`, which writes the packet value's bytes, and
preserved by every operation), is embedded as a payload of type
`Payload kind`; the `transmute`-based reads back out of the buffer become
type-correct projections guarded by the same kind comparison as the
source. -/
structure AnyPacket (Payload : Nat → Type) where
  kind : Nat
  buffer : Payload kind

/-- `AnyPacket::from_packet` from mod.rs: store a packet value of the type
registered at kind `k` behind the kind tag `k`. -/
def AnyPacket.from_packet (Payload : Nat → Type) (k : Nat) (v : Payload k) :
    AnyPacket Payload :=
  { kind := k, buffer := v }

/-- `AnyPacket::downcast` from mod.rs: `P::packet_kind() == self.kind`
guards the borrow of the buffer as a `P` value. -/
def AnyPacket.downcast {Payload : Nat → Type} (p : AnyPacket Payload)
    (kp : Nat) : Option (Payload kp) :=
  if h : kp = p.kind then some (h.symm ▸ p.buffer) else none

/-- `AnyPacket::downcast_mut` from mod.rs: same kind check as `downcast`,
granting the mutable borrow of the same stored value. -/
def AnyPacket.downcast_mut {Payload : Nat → Type} (p : AnyPacket Payload)
    (kp : Nat) : Option (Payload kp) :=
  if h : kp = p.kind then some (h.symm ▸ p.buffer) else none

/-- `AnyPacket::into_downcast` from mod.rs: on a kind match the payload is
moved out (`ptr::read` + `mem::forget`); on a mismatch the original
container is returned unchanged in the `Err` case. -/
def AnyPacket.into_downcast {Payload : Nat → Type} (p : AnyPacket Payload)
    (kp : Nat) : Except (AnyPacket Payload) (Payload kp) :=
  if h : kp = p.kind then .ok (h.symm ▸ p.buffer) else .error p

/-- The registry entry as the framing reader consumes it, for packets
decoded into an abstract type `α`: kind byte, version-dependent fixed
length, and the type-erased decode operation. -/
structure Registration (α : Type) where
  packet_kind : Nat
  fixed_length : ClientVersion → Option Nat
  decode : ClientVersion → List Nat → Except String α

/-- `Reader` connection state from mod.rs: the `has_received` handshake
flag.  The buffered stream half is embedded as the explicit list of
incoming bytes; the scratch buffer is cleared between packets and has no
observable state. -/
structure ReaderState where
  has_received : Bool
deriving DecidableEq, Repr

/-- `Writer` connection state from mod.rs: the `has_sent` flag. -/
structure WriterState where
  has_sent : Bool
deriving DecidableEq, Repr

/-- Steady-state body of `Reader::receive` after the kind byte has been
read: registry lookup, fixed-vs-variable length determination
(`read_u16 as usize - 3` is the source's unchecked `usize` subtraction:
for a total below 3 it panics with subtract-with-overflow under debug
assertions, and under release semantics wraps to a huge length whose
buffer resize aborts — in both builds a panic outcome, never an `err`),
`read_exact` of the body, and decode. -/
def receive_framed {α : Type} (registry : Nat → Option (Registration α))
    (cv : ClientVersion) (packet_kind : Nat) (input : List Nat) :
    Outcome (α × List Nat) :=
  match registry packet_kind with
  | none => .err "Unknown packet type"
  | some registration =>
    let length_read : Outcome (Nat × List Nat) :=
      match registration.fixed_length cv with
      | some fixed_length => .ok (fixed_length, input)
      | none =>
        match input with
        | b1 :: b2 :: rest =>
          let total := be_u16 b1 b2
          if total < 3 then .panic "attempt to subtract with overflow"
          else .ok (total - 3, rest)
        | _ => .err "unexpected end of file"
    match length_read with
    | .panic m => .panic m
    | .err m => .err m
    | .ok (length, rest) =>
      if length ≤ rest.length then
        match registration.decode cv (rest.take length) with
        | .ok packet => .ok (packet, rest.drop length)
        | .error m => .err m
      else .err "unexpected end of file"

/-- Attach the reader state to a framed receive outcome. -/
def with_state {α : Type} (o : Outcome (α × List Nat)) (st : ReaderState) :
    Outcome (α × ReaderState × List Nat) :=
  match o with
  | .ok (packet, rest) => .ok (packet, st, rest)
  | .err m => .err m
  | .panic m => .panic m

/-- `Reader::receive` from mod.rs.  `legacy_seed` is the
`AnyPacket::from_packet(LegacySeed { seed })` synthesis for the legacy
handshake; the error message of the unknown-kind failure is embedded
without its hex formatting.  The function returns the received packet, the
updated reader state and the unconsumed remainder of the byte stream. -/
def receive {α : Type} (registry : Nat → Option (Registration α))
    (legacy_seed : Nat → α) (cv : ClientVersion) (st : ReaderState)
    (input : List Nat) : Outcome (α × ReaderState × List Nat) :=
  if st.has_received then
    -- self.has_received = false; first byte decides legacy vs framed
    match input with
    | [] => .err "unexpected end of file"
    | first_byte :: rest =>
      if first_byte ≠ 0xef then
        match rest with
        | b1 :: b2 :: b3 :: rest₂ =>
          .ok (legacy_seed (be_u32 first_byte b1 b2 b3), ⟨false⟩, rest₂)
        | _ => .err "unexpected end of file"
      else
        with_state (receive_framed registry cv first_byte rest) ⟨false⟩
  else
    match input with
    | [] => .err "unexpected end of file"
    | packet_kind :: rest =>
      with_state (receive_framed registry cv packet_kind rest) st

/-- A packet value on the sending side, as `Writer::send` consumes it
through the `Packet` trait: its kind byte, its version-dependent fixed
length, and the bytes its `encode` appends for the negotiated version (or
the error `encode` fails with). -/
structure PacketImpl where
  packet_kind : Nat
  fixed_length : ClientVersion → Option Nat
  encode : ClientVersion → Except String (List Nat)

/-- `Writer::send_legacy_seed` from mod.rs: refuse with a recoverable
error if anything has been sent, otherwise write the 4 big-endian seed
bytes and flush. -/
def send_legacy_seed (seed : Nat) (st : WriterState) :
    Outcome (List Nat × WriterState) :=
  if st.has_sent then .err "Tried to send legacy hello after other packets"
  else .ok (be_u32_bytes seed, ⟨true⟩)

/-- `Writer::send` from mod.rs.  Fixed-length path: buffer = kind byte then
encoded body, then `assert_eq!(length, self.buffer.len(), ...)` — a failed
assertion is a panic.  Variable-length path: buffer = kind byte, two
placeholder bytes, body; then the length field is patched with
`self.buffer.len() as u16` (truncation modulo 2^16) written big-endian.
Returns the bytes written to the stream and the updated writer state. -/
def send (cv : ClientVersion) (packet : PacketImpl) (st : WriterState) :
    Outcome (List Nat × WriterState) :=
  let st' : WriterState := ⟨true⟩  -- self.has_sent = true
  match packet.fixed_length cv with
  | some length =>
    match packet.encode cv with
    | .error m => .err m
    | .ok body =>
      let buffer := packet.packet_kind :: body
      if length = buffer.length then .ok (buffer, st')
      else .panic "Fixed length packet wrote wrong size"
  | none =>
    match packet.encode cv with
    | .error m => .err m
    | .ok body =>
      let total := (packet.packet_kind :: 0 :: 0 :: body).length
      let packet_len := total % 0x10000  -- self.buffer.len() as u16
      .ok (packet.packet_kind :: ((packet_len >>> 8) &&& 255)
             :: (packet_len &&& 255) :: body, st')

/-- `Writer::send_any` from mod.rs: same framing as `send`, with kind,
fixed length and encode taken from the `AnyPacket`'s registration (its
kind tag always matches the registration consulted, so the inputs take the
same shape as for `send`). -/
def send_any (cv : ClientVersion) (packet : PacketImpl) (st : WriterState) :
    Outcome (List Nat × WriterState) :=
  let st' : WriterState := ⟨true⟩  -- self.has_sent = true
  match packet.fixed_length cv with
  | some length =>
    match packet.encode cv with
    | .error m => .err m
    | .ok body =>
      let buffer := packet.packet_kind :: body
      if length = buffer.length then .ok (buffer, st')
      else .panic "Fixed length packet wrote wrong size"
  | none =>
    match packet.encode cv with
    | .error m => .err m
    | .ok body =>
      let total := (packet.packet_kind :: 0 :: 0 :: body).length
      let packet_len := total % 0x10000  -- self.buffer.len() as u16
      .ok (packet.packet_kind :: ((packet_len >>> 8) &&& 255)
             :: (packet_len &&& 255) :: body, st')

/-- `new_io` from mod.rs: initial reader and writer state for a fresh
connection; on the server side the legacy hello is still to be consumed
(`has_received = is_server`) and counts as already sent
(`has_sent = is_server`). -/
def new_io (is_server : Bool) : ReaderState × WriterState :=
  ({ has_received := is_server }, { has_sent := is_server })

/-- The client version value used for concrete demonstrations (the framing
paths under study do not inspect it). -/
def cv0 : ClientVersion := ⟨0⟩

/-- The legacy-seed synthesis instantiated at payload type `List Nat`. -/
def seed_packet : Nat → List Nat := fun seed => [seed]

/-- A packet value obeying the spec's fixed-length contract:
`fixed_length = Some 4` and `encode` writes exactly 4 body bytes. -/
def fixed_spec_packet : PacketImpl :=
  { packet_kind := 0x55, fixed_length := fun _ => some 4,
    encode := fun _ => .ok [1, 2, 3, 4] }

/-- A packet value obeying `Writer::send`'s assertion instead: `encode`
writes 3 body bytes, so kind byte + body meets
`assert_eq!(length, self.buffer.len())` for declared length 4. -/
def fixed_assert_packet : PacketImpl :=
  { packet_kind := 0x55, fixed_length := fun _ => some 4,
    encode := fun _ => .ok [1, 2, 3] }

/-- A registry holding one fixed-length registration, at kind 0x55,
decoding to the raw payload bytes. -/
def fixed_registry : Nat → Option (Registration (List Nat)) :=
  fun k =>
    if k = 0x55 then
      some { packet_kind := 0x55, fixed_length := fun _ => some 4,
             decode := fun _ bytes => .ok bytes }
    else none

/-- A registry holding one variable-length registration, at kind 0xA0,
decoding to the raw payload bytes. -/
def var_registry : Nat → Option (Registration (List Nat)) :=
  fun k =>
    if k = 0xA0 then
      some { packet_kind := 0xA0, fixed_length := fun _ => none,
             decode := fun _ bytes => .ok bytes }
    else none

/-- A variable-length packet value whose encoded body makes the whole
frame (kind byte + 2 length bytes + body) exactly 2^16 bytes long. -/
def big_packet : PacketImpl :=
  { packet_kind := 0xAA, fixed_length := fun _ => none,
    encode := fun _ => .ok (List.replicate 0xFFFD 0) }

/-- A registration list whose maximum size matches the constant. -/
def demo_registrations : List PacketRegistration :=
  [⟨0xEF, 64⟩, ⟨0x80, 21⟩]

end Protocol

end Yewoh

namespace Yewoh

open Protocol

/-- Helper: a registration found in the built table carries the kind byte
it is stored under and comes from the registration list (or was already in
the accumulator table). -/
theorem foldl_registry_insert (rs : List PacketRegistration)
    (acc : Nat → Option PacketRegistration) (k : Nat) (r : PacketRegistration)
    (h : rs.foldl registry_insert acc k = some r) :
    (r ∈ rs ∧ r.packet_kind = k) ∨ acc k = some r := by
  induction rs generalizing acc with
  | nil => exact Or.inr h
  | cons a t ih =>
    rcases ih (registry_insert acc a) h with hmem | hacc
    · exact Or.inl ⟨List.mem_cons_of_mem a hmem.1, hmem.2⟩
    · unfold registry_insert at hacc
      by_cases hk : k = a.packet_kind
      · rw [if_pos hk] at hacc
        cases hacc
        exact Or.inl ⟨List.mem_cons_self _ _, hk.symm⟩
      · rw [if_neg hk] at hacc
        exact Or.inr hacc

/-- Helper: the max-size fold never goes below its initial value. -/
theorem foldl_max_init_le (rs : List PacketRegistration) (init : Nat) :
    init ≤ rs.foldl (fun m r => max r.size m) init := by
  induction rs generalizing init with
  | nil => exact Nat.le_refl init
  | cons a t ih => exact Nat.le_trans (Nat.le_max_right a.size init) (ih _)

/-- Helper: the max-size fold dominates every member's size. -/
theorem foldl_max_mem_le (rs : List PacketRegistration) (init : Nat)
    (r : PacketRegistration) (h : r ∈ rs) :
    r.size ≤ rs.foldl (fun m r => max r.size m) init := by
  induction rs generalizing init with
  | nil => cases h
  | cons a t ih =>
    rcases List.mem_cons.mp h with rfl | hmem
    · exact Nat.le_trans (Nat.le_max_left r.size init) (foldl_max_init_le t _)
    · exact ih _ hmem

/-- C2: with the all-zero 16-byte key, encrypting the all-zero 16-byte
block with the embedded `key_schedule` and `encrypt` yields exactly the
published Twofish 128-bit-key all-zero test vector ciphertext
9F589F5CF6122C32B6BFEC2F2AE8C35A, byte for byte. -/
theorem twofish_zero_vector :
    Twofish.encrypt (Twofish.key_schedule (List.replicate 16 0))
      (List.replicate 16 0) =
    [0x9F, 0x58, 0x9F, 0x5C, 0xF6, 0x12, 0x2C, 0x32,
     0xB6, 0xBF, 0xEC, 0x2F, 0x2A, 0xE8, 0xC3, 0x5A] := by decide

/-- C1: the fixed-length framing of `Writer::send` and `Reader::receive`
disagree by one byte.  A packet whose `encode` writes exactly its declared
fixed length of 4 body bytes (as the spec's fixed-length contract demands)
makes `Writer::send` panic on `assert_eq!(length, self.buffer.len())`,
since the buffer also holds the kind byte; a packet whose `encode` writes
3 body bytes passes the assertion and the writer emits 4 bytes in total,
but `Reader::receive` then reads 4 body bytes after the kind byte,
consuming 5 bytes in total — the writer-emitted and reader-consumed byte
counts for the same declared fixed length differ. -/
theorem writer_reader_fixed_length_mismatch :
    send cv0 fixed_spec_packet ⟨false⟩ =
      .panic "Fixed length packet wrote wrong size" ∧
    send cv0 fixed_assert_packet ⟨false⟩ = .ok ([0x55, 1, 2, 3], ⟨true⟩) ∧
    receive fixed_registry seed_packet cv0 ⟨false⟩ [0x55, 1, 2, 3] =
      .err "unexpected end of file" ∧
    receive fixed_registry seed_packet cv0 ⟨false⟩ [0x55, 1, 2, 3, 9] =
      .ok ([1, 2, 3, 9], ⟨false⟩, []) := by decide

/-- C6: a variable-length total-length field below 3 is not surfaced as an
error: computing `read_u16 as usize - 3` underflows, a panic (debug
subtract-with-overflow, release huge-resize abort), for totals 0, 1 and 2;
a total of 3 is accepted as an empty body. -/
theorem malformed_length_underflow_panics :
    receive var_registry seed_packet cv0 ⟨false⟩ [0xA0, 0, 0] =
      .panic "attempt to subtract with overflow" ∧
    receive var_registry seed_packet cv0 ⟨false⟩ [0xA0, 0, 1, 7] =
      .panic "attempt to subtract with overflow" ∧
    receive var_registry seed_packet cv0 ⟨false⟩ [0xA0, 0, 2, 7, 7] =
      .panic "attempt to subtract with overflow" ∧
    receive var_registry seed_packet cv0 ⟨false⟩ [0xA0, 0, 3] =
      .ok ([], ⟨false⟩, []) := by decide

/-- C3: a fresh server-side reader (`has_received = true`) whose first
byte is not 0xEF consumes exactly 4 bytes, synthesizes the legacy seed as
their big-endian u32 and drops to `has_received = false`; with
`has_received = false` the outcome never depends on the legacy-seed
synthesizer (so a legacy-seed packet is never synthesized again) and every
successful receive leaves the state at `has_received = false`. -/
theorem legacy_handshake_once {α : Type}
    (registry : Nat → Option (Registration α)) (legacy_seed : Nat → α)
    (cv : ClientVersion) (b0 b1 b2 b3 : Nat) (rest : List Nat)
    (h : b0 ≠ 0xef) :
    receive registry legacy_seed cv ⟨true⟩ (b0 :: b1 :: b2 :: b3 :: rest) =
      .ok (legacy_seed (be_u32 b0 b1 b2 b3), ⟨false⟩, rest) ∧
    (∀ (input : List Nat) (ls₂ : Nat → α),
      receive registry legacy_seed cv ⟨false⟩ input =
        receive registry ls₂ cv ⟨false⟩ input) ∧
    (∀ (input : List Nat) (packet : α) (st₂ : ReaderState)
        (rest₂ : List Nat),
      receive registry legacy_seed cv ⟨false⟩ input =
        .ok (packet, st₂, rest₂) → st₂ = ⟨false⟩) := by
  refine ⟨by simp [receive, h], ?_, ?_⟩
  · intro input ls₂
    cases input <;> rfl
  · intro input packet st₂ rest₂ hok
    cases input with
    | nil => simp [receive] at hok
    | cons k r =>
      simp only [receive, with_state] at hok
      cases hrf : receive_framed registry cv k r with
      | ok pr =>
        rw [hrf] at hok
        cases pr with
        | mk packet₂ rest₃ =>
          simp at hok
          exact hok.2.1.symm
      | err m => rw [hrf] at hok; simp at hok
      | panic m => rw [hrf] at hok; simp at hok

/-- Witness for C3 at a concrete connection: first bytes 01 02 03 04. -/
theorem legacy_handshake_once_witness :
    receive (fun _ => (none : Option (Registration (List Nat))))
      seed_packet cv0 ⟨true⟩ [1, 2, 3, 4, 9] =
      .ok (seed_packet (be_u32 1 2 3 4), ⟨false⟩, [9]) :=
  (legacy_handshake_once _ _ _ _ _ _ _ _ (by decide)).1

/-- C4: a kind byte with no registry entry makes steady-state
`Reader::receive` return the unknown-packet-kind failure as a recoverable
error value, whatever bytes follow the kind byte — no length or body byte
is consumed, since the outcome is the same for every continuation of the
stream. -/
theorem unknown_kind_recoverable {α : Type}
    (registry : Nat → Option (Registration α)) (legacy_seed : Nat → α)
    (cv : ClientVersion) (k : Nat) (rest : List Nat)
    (h : registry k = none) :
    receive registry legacy_seed cv ⟨false⟩ (k :: rest) =
      .err "Unknown packet type" := by
  simp [receive, receive_framed, with_state, h]

/-- Witness for C4: an empty registry, kind byte 0x33. -/
theorem unknown_kind_recoverable_witness :
    receive (fun _ => (none : Option (Registration (List Nat))))
      seed_packet cv0 ⟨false⟩ [0x33, 9, 9] = .err "Unknown packet type" :=
  unknown_kind_recoverable _ seed_packet cv0 0x33 [9, 9] rfl

/-- Counterexample to C7 as stated: the second `send_legacy_seed` on a
writer that has already sent surfaces a recoverable error result, not an
assertion or fatal failure. -/
theorem legacy_seed_twice_not_assertion :
    send_legacy_seed 0 ⟨true⟩ =
      .err "Tried to send legacy hello after other packets" ∧
    ∀ m, send_legacy_seed 0 ⟨true⟩ ≠ .panic m := by
  refine ⟨rfl, ?_⟩
  intro m hp
  simp [send_legacy_seed] at hp

/-- C7 (amended): once anything has been sent (`has_sent = true`, which
both `send` paths and a first `send_legacy_seed` establish),
`send_legacy_seed` returns a recoverable error result; the first call on a
fresh client-side writer (`new_io false`) succeeds and writes exactly the
4 big-endian seed bytes. -/
theorem legacy_seed_error_behaviour (seed : Nat) (st : WriterState)
    (cv : ClientVersion) (packet : PacketImpl) :
    (st.has_sent = true →
      send_legacy_seed seed st =
        .err "Tried to send legacy hello after other packets") ∧
    ((new_io false).2 = ⟨false⟩ ∧
      send_legacy_seed seed ⟨false⟩ = .ok (be_u32_bytes seed, ⟨true⟩) ∧
      (be_u32_bytes seed).length = 4) ∧
    (∀ out st₂, send cv packet st = .ok (out, st₂) → st₂.has_sent = true) ∧
    (∀ out st₂, send_legacy_seed seed st = .ok (out, st₂) →
      st₂.has_sent = true) := by
  refine ⟨fun hs => by simp [send_legacy_seed, hs], ⟨rfl, rfl, rfl⟩, ?_, ?_⟩
  · intro out st₂ hok
    unfold send at hok
    dsimp only at hok
    split at hok <;> split at hok
    · simp at hok
    · split at hok
      · injection hok with hpair
        injection hpair with h₁ h₂
        exact h₂ ▸ rfl
      · simp at hok
    · simp at hok
    · injection hok with hpair
      injection hpair with h₁ h₂
      exact h₂ ▸ rfl
  · intro out st₂ hok
    unfold send_legacy_seed at hok
    split at hok
    · simp at hok
    · injection hok with hpair
      injection hpair with h₁ h₂
      exact h₂ ▸ rfl

/-- Witness for C7: seed 7, a stale writer and a fresh client writer. -/
theorem legacy_seed_error_behaviour_witness :
    send_legacy_seed 7 ⟨true⟩ =
      .err "Tried to send legacy hello after other packets" ∧
    send_legacy_seed 7 ⟨false⟩ = .ok (be_u32_bytes 7, ⟨true⟩) :=
  ⟨(legacy_seed_error_behaviour 7 ⟨true⟩ cv0
      ⟨0, fun _ => none, fun _ => .ok []⟩).1 rfl,
   (legacy_seed_error_behaviour 7 ⟨false⟩ cv0
      ⟨0, fun _ => none, fun _ => .ok []⟩).2.1.2.1⟩

/-- C8: `downcast`, `downcast_mut` and `into_downcast` are guarded by the
kind comparison: on a mismatched kind they return `none` / `Err` carrying
the original container with kind tag and payload untouched; on a matching
kind they yield the stored value. -/
theorem downcast_kind_check (Payload : Nat → Type) (p : AnyPacket Payload)
    (kp k : Nat) (v : Payload k) :
    (kp ≠ p.kind →
      p.downcast kp = none ∧ p.downcast_mut kp = none ∧
      p.into_downcast kp = .error p) ∧
    ((AnyPacket.from_packet Payload k v).downcast k = some v ∧
     (AnyPacket.from_packet Payload k v).downcast_mut k = some v ∧
     (AnyPacket.from_packet Payload k v).into_downcast k = .ok v) := by
  constructor
  · intro hne
    refine ⟨?_, ?_, ?_⟩ <;>
      simp [AnyPacket.downcast, AnyPacket.downcast_mut,
        AnyPacket.into_downcast, hne]
  · refine ⟨?_, ?_, ?_⟩ <;>
      simp [AnyPacket.downcast, AnyPacket.downcast_mut,
        AnyPacket.into_downcast, AnyPacket.from_packet]

/-- Witness for C8: a mismatched downcast at kinds 2 vs 1 and a matching
one at kind 5. -/
theorem downcast_kind_check_witness :
    ((⟨1, 7⟩ : AnyPacket (fun _ => Nat)).downcast 2 = none ∧
     (⟨1, 7⟩ : AnyPacket (fun _ => Nat)).downcast_mut 2 = none ∧
     (⟨1, 7⟩ : AnyPacket (fun _ => Nat)).into_downcast 2 =
       .error ⟨1, 7⟩) ∧
    ((AnyPacket.from_packet (fun _ => Nat) 5 3).downcast 5 = some 3 ∧
     (AnyPacket.from_packet (fun _ => Nat) 5 3).downcast_mut 5 = some 3 ∧
     (AnyPacket.from_packet (fun _ => Nat) 5 3).into_downcast 5 = .ok 3) :=
  ⟨(downcast_kind_check (fun _ => Nat) ⟨1, 7⟩ 2 5 3).1 (by decide),
   (downcast_kind_check (fun _ => Nat) ⟨1, 7⟩ 2 5 3).2⟩

/-- C9: the built registry holds at most one registration per kind byte —
the entry stored at a kind, when present, is a listed registration
carrying exactly that kind; the initializer succeeds exactly when the
maximum registered size equals `MAX_PACKET_STRUCT_SIZE`, in which case
every registered size fits in the `AnyPacket` inline buffer capacity, and
a mismatch is a startup-time panic of the initializer, not an error
value. -/
theorem registry_invariants (rs : List PacketRegistration) :
    (∀ k r, build_registrations rs k = some r → r.packet_kind = k ∧ r ∈ rs) ∧
    (registry_max_size rs = MAX_PACKET_STRUCT_SIZE →
      packet_registry rs = .ok (build_registrations rs) ∧
      ∀ r ∈ rs, r.size ≤ ANYPACKET_BUFFER_CAPACITY) ∧
    (registry_max_size rs ≠ MAX_PACKET_STRUCT_SIZE →
      packet_registry rs = .panic "MAX_PACKET_STRUCT_SIZE is out of date") := by
  refine ⟨?_, ?_, ?_⟩
  · intro k r h
    rcases foldl_registry_insert rs (fun _ => none) k r h with hmem | hnone
    · exact ⟨hmem.2, hmem.1⟩
    · cases hnone
  · intro hmax
    refine ⟨by simp [packet_registry, hmax], ?_⟩
    intro r hr
    calc r.size ≤ registry_max_size rs := foldl_max_mem_le rs 0 r hr
    _ = MAX_PACKET_STRUCT_SIZE := hmax
  · intro hmax
    simp [packet_registry, hmax]

/-- Witness for C9: a two-entry registration list of maximum size 64. -/
theorem registry_invariants_witness :
    packet_registry demo_registrations =
      .ok (build_registrations demo_registrations) ∧
    ∀ r ∈ demo_registrations, r.size ≤ ANYPACKET_BUFFER_CAPACITY :=
  (registry_invariants demo_registrations).2.1 (by decide)

/-- C10: a variable-length frame longer than 65535 bytes is written with a
length field equal to the total length reduced modulo 2^16 (`as u16`
narrowing), by both `send` and `send_any`, and both report success; the
declared length then differs from the number of bytes written. -/
theorem oversized_frame_truncated_length (cv : ClientVersion)
    (packet : PacketImpl) (body : List Nat) (st : WriterState)
    (hfl : packet.fixed_length cv = none)
    (henc : packet.encode cv = .ok body)
    (hbig : 0x10000 ≤ body.length + 3) :
    send cv packet st = .ok (packet.packet_kind
        :: ((((body.length + 3) % 0x10000) >>> 8) &&& 255)
        :: (((body.length + 3) % 0x10000) &&& 255) :: body, ⟨true⟩) ∧
    send_any cv packet st = .ok (packet.packet_kind
        :: ((((body.length + 3) % 0x10000) >>> 8) &&& 255)
        :: (((body.length + 3) % 0x10000) &&& 255) :: body, ⟨true⟩) ∧
    (body.length + 3) % 0x10000 ≠ body.length + 3 := by
  refine ⟨?_, ?_, ?_⟩
  · simp [send, hfl, henc]
  · simp [send_any, hfl, henc]
  · intro heq
    have hlt : (body.length + 3) % 0x10000 < 0x10000 :=
      Nat.mod_lt _ (by decide)
    omega

/-- Witness for C10: a 65533-byte body, so the frame is exactly 2^16 bytes
and the written length field is 0. -/
theorem oversized_frame_truncated_length_witness :
    send cv0 big_packet ⟨false⟩ = .ok (big_packet.packet_kind
        :: (((((List.replicate 0xFFFD (0 : Nat)).length + 3) % 0x10000) >>> 8) &&& 255)
        :: ((((List.replicate 0xFFFD (0 : Nat)).length + 3) % 0x10000) &&& 255)
        :: List.replicate 0xFFFD 0, ⟨true⟩) ∧
    send_any cv0 big_packet ⟨false⟩ = .ok (big_packet.packet_kind
        :: (((((List.replicate 0xFFFD (0 : Nat)).length + 3) % 0x10000) >>> 8) &&& 255)
        :: ((((List.replicate 0xFFFD (0 : Nat)).length + 3) % 0x10000) &&& 255)
        :: List.replicate 0xFFFD 0, ⟨true⟩) ∧
    ((List.replicate 0xFFFD (0 : Nat)).length + 3) % 0x10000 ≠
      (List.replicate 0xFFFD (0 : Nat)).length + 3 :=
  oversized_frame_truncated_length cv0 big_packet
    (List.replicate 0xFFFD 0) ⟨false⟩ rfl rfl
    (by simp only [List.length_replicate]; decide)

end Yewoh
